import Mathlib

/-!
# POMDPy generative-model contract and particle belief updater: a shallow embedding

This file embeds the particle-generation core of `pomdpy/pomdp/model.py`
(the abstract `Model` class and the `StepResult` record) and settles the
frozen claims about it.

Modelling choices, stated once:

* Python values that may be `None` are `Option`-typed; the dynamically
  typed scalar fields of `StepResult` (`reward`, `is_terminal`) are a small
  `PyScalar` type so that the difference between the integer `0` and the
  boolean `False` is observable.
* Randomness is made explicit: `generate_step` and `sample_state_uninformed`
  take a draw index (the attempt counter), and `random.choice` is driven by
  an index stream `choice : Nat → Nat`. This realises the contract that two
  calls with the same arguments need not agree.
* The belief-tree storage (`action_map.get_action_node`,
  `observation_map.get_belief`) is external to the repository; it is carried
  as opaque lookup functions. A belief-node handle is a `Nat` identity
  token, so that the Python `is` comparison on resolved handles is equality
  of `Option Nat` values (`None is None` holds, and two structurally equal
  but distinct nodes carry distinct tokens).
* The unbounded `while` loops are indexed by fuel; a result of `none` means
  the loop did not finish within the given fuel, and since the embedding is
  deterministic in its explicit random streams, `∀ fuel, result = none`
  expresses nontermination. A terminating run returns the particle list
  together with the number of loop iterations, which equals the number of
  `generate_step` calls (and of candidate draws) made.
* A Python exception escaping the function is an `Except.error`:
  `attributeError` for attribute access on `None`, `indexError` for
  `random.choice` on an empty sequence.
-/

/-- Python scalar values as they appear in `StepResult` fields: the integer
`0` and the boolean `False` are distinct values, both falsy. -/
inductive PyScalar where
  | pyNone
  | pyInt (n : Int)
  | pyBool (b : Bool)
deriving DecidableEq, Repr

/-- Python truthiness of a `PyScalar`. -/
def PyScalar.truthy : PyScalar → Bool
  | .pyNone => false
  | .pyInt n => n != 0
  | .pyBool b => b

/-- Exceptions the embedded code can raise. -/
inductive PyErr where
  | attributeError
  | indexError
deriving DecidableEq, Repr

/-- `StepResult` (model.py lines 208-221): the record produced by one
simulation step. Field order and defaults follow `StepResult.__init__`. -/
structure StepResult (State Action Obs : Type) where
  action : Option Action
  observation : Option Obs
  reward : PyScalar
  next_state : Option State
  is_terminal : PyScalar
deriving DecidableEq, Repr

/-- `StepResult.__init__` (model.py lines 216-221): the freshly constructed
record. -/
def StepResult.init {State Action Obs : Type} : StepResult State Action Obs :=
  { action := none
    observation := none
    reward := .pyInt 0
    next_state := none
    is_terminal := .pyInt 0 }

/-- Modelled from the spec: the observation-class lookup consumed from the
external belief-tree storage (spec section 6). `get_belief` maps an
observation (possibly `None`) to the identity token of the belief node
representing its equivalence class, or to `none` when the observation was
never seen at this action node. -/
structure ObservationMap (Obs : Type) where
  get_belief : Option Obs → Option Nat

/-- Modelled from the spec: an action node of the belief tree, carrying its
observation map. -/
structure ActionNode (Obs : Type) where
  observation_map : ObservationMap Obs

/-- Modelled from the spec: the action-node lookup consumed from the
external belief-tree storage (spec section 6). -/
structure ActionMap (Action Obs : Type) where
  get_action_node : Action → Option (ActionNode Obs)

/-- Modelled from the spec: a belief node, carrying its action map. -/
structure BeliefNode (Action Obs : Type) where
  action_map : ActionMap Action Obs

/-- The abstract methods of `Model` (model.py lines 8-147) that the
particle-generation code uses. `generate_step` and
`sample_state_uninformed` take a draw index to realise their internal
stochastic source. -/
structure Model (State Action Obs : Type) where
  generate_step : Nat → State → Action → StepResult State Action Obs × Bool
  sample_state_uninformed : Nat → State
  is_valid : State → Bool

/-- `random.choice(seq)` driven by an explicit draw `idx`: picks the element
at `idx % seq.length`, and raises `IndexError` on an empty sequence. -/
def random_choice {α : Type} (idx : Nat) (seq : List α) : Except PyErr α :=
  match seq.get? (idx % seq.length) with
  | some s => .ok s
  | none => .error .indexError

/-- The `while` loop of `generate_particles` (model.py lines 170-179),
fuel-indexed. `t` counts completed iterations; on normal exit it is
returned as the number of `generate_step` calls made. -/
def Model.generate_particles_loop {State Action Obs : Type}
    (m : Model State Action Obs) (action : Action)
    (obs_map : ObservationMap Obs) (child_node : Option Nat)
    (n_particles : Int) (prev_particles : List State) (choice : Nat → Nat) :
    Nat → Nat → List (Option State) →
      Option (Except PyErr (List (Option State) × Nat))
  | 0, t, particles =>
    if (particles.length : Int) < n_particles then none
    else some (.ok (particles, t))
  | fuel + 1, t, particles =>
    if (particles.length : Int) < n_particles then
      match random_choice (choice t) prev_particles with
      | .error e => some (.error e)
      | .ok state =>
        let result := (m.generate_step t state action).fst
        if obs_map.get_belief result.observation = child_node then
          m.generate_particles_loop action obs_map child_node n_particles
            prev_particles choice fuel (t + 1) (particles ++ [result.next_state])
        else
          m.generate_particles_loop action obs_map child_node n_particles
            prev_particles choice fuel (t + 1) particles
    else some (.ok (particles, t))

/-- `Model.generate_particles` (model.py lines 149-180): rejection sampling
with candidates drawn by `random.choice` from `prev_particles`. A missing
action node returns the empty particle list before any draw. -/
def Model.generate_particles {State Action Obs : Type}
    (m : Model State Action Obs) (previous_belief : BeliefNode Action Obs)
    (action : Action) (obs : Option Obs) (n_particles : Int)
    (prev_particles : List State) (choice : Nat → Nat) (fuel : Nat) :
    Option (Except PyErr (List (Option State) × Nat)) :=
  match previous_belief.action_map.get_action_node action with
  | none => some (.ok ([], 0))
  | some action_node =>
    let obs_map := action_node.observation_map
    let child_node := obs_map.get_belief obs
    m.generate_particles_loop action obs_map child_node n_particles
      prev_particles choice fuel 0 []

/-- The `while` loop of `generate_particles_uninformed` (model.py lines
195-204), fuel-indexed; candidates come from `sample_state_uninformed`. -/
def Model.generate_particles_uninformed_loop {State Action Obs : Type}
    (m : Model State Action Obs) (action : Action)
    (obs_map : ObservationMap Obs) (child_node : Option Nat)
    (n_particles : Int) :
    Nat → Nat → List (Option State) →
      Option (Except PyErr (List (Option State) × Nat))
  | 0, t, particles =>
    if (particles.length : Int) < n_particles then none
    else some (.ok (particles, t))
  | fuel + 1, t, particles =>
    if (particles.length : Int) < n_particles then
      let state := m.sample_state_uninformed t
      let result := (m.generate_step t state action).fst
      if obs_map.get_belief result.observation = child_node then
        m.generate_particles_uninformed_loop action obs_map child_node
          n_particles fuel (t + 1) (particles ++ [result.next_state])
      else
        m.generate_particles_uninformed_loop action obs_map child_node
          n_particles fuel (t + 1) particles
    else some (.ok (particles, t))

/-- `Model.generate_particles_uninformed` (model.py lines 182-205). Note
the source checks nothing: `get_action_node(action).observation_map` on a
missing action node raises `AttributeError` (`None` has no attribute). -/
def Model.generate_particles_uninformed {State Action Obs : Type}
    (m : Model State Action Obs) (previous_belief : BeliefNode Action Obs)
    (action : Action) (obs : Option Obs) (n_particles : Int)
    (fuel : Nat) :
    Option (Except PyErr (List (Option State) × Nat)) :=
  match previous_belief.action_map.get_action_node action with
  | none => some (.error .attributeError)
  | some action_node =>
    let obs_map := action_node.observation_map
    let child_node := obs_map.get_belief obs
    m.generate_particles_uninformed_loop action obs_map child_node
      n_particles fuel 0 []

/-! ## The shared rejection-sampling algorithm -/

/-- Modelled from the spec: the shared rejection-sampling algorithm of
section 4.2, parametric in the proposal distribution `candidate`. Both
entry points are instances of this core once the belief-node handles are
resolved. -/
def particle_filter_core {State Action Obs : Type}
    (m : Model State Action Obs) (action : Action)
    (obs_map : ObservationMap Obs) (child_node : Option Nat)
    (n_particles : Int) (candidate : Nat → Except PyErr State) :
    Nat → Nat → List (Option State) →
      Option (Except PyErr (List (Option State) × Nat))
  | 0, t, particles =>
    if (particles.length : Int) < n_particles then none
    else some (.ok (particles, t))
  | fuel + 1, t, particles =>
    if (particles.length : Int) < n_particles then
      match candidate t with
      | .error e => some (.error e)
      | .ok state =>
        let result := (m.generate_step t state action).fst
        if obs_map.get_belief result.observation = child_node then
          particle_filter_core m action obs_map child_node n_particles
            candidate fuel (t + 1) (particles ++ [result.next_state])
        else
          particle_filter_core m action obs_map child_node n_particles
            candidate fuel (t + 1) particles
    else some (.ok (particles, t))

/-- The proposal distribution of `generate_particles`: uniform draws with
replacement from the prior particle collection. -/
def informed_proposal {State : Type} (prev_particles : List State)
    (choice : Nat → Nat) : Nat → Except PyErr State :=
  fun t => random_choice (choice t) prev_particles

/-- The proposal distribution of `generate_particles_uninformed`. -/
def uninformed_proposal {State Action Obs : Type}
    (m : Model State Action Obs) : Nat → Except PyErr State :=
  fun t => .ok (m.sample_state_uninformed t)

/-- The informed loop is the shared core run at the informed proposal. -/
theorem generate_particles_loop_eq_core {State Action Obs : Type}
    (m : Model State Action Obs) (action : Action)
    (obs_map : ObservationMap Obs) (child_node : Option Nat)
    (n_particles : Int) (prev_particles : List State) (choice : Nat → Nat) :
    ∀ (fuel t : Nat) (particles : List (Option State)),
      m.generate_particles_loop action obs_map child_node n_particles
        prev_particles choice fuel t particles =
      particle_filter_core m action obs_map child_node n_particles
        (informed_proposal prev_particles choice) fuel t particles := by
  intro fuel
  induction fuel with
  | zero => intro t particles; rfl
  | succ fuel ih =>
    intro t particles
    simp only [Model.generate_particles_loop, particle_filter_core,
      informed_proposal]
    split
    · cases random_choice (choice t) prev_particles with
      | error e => rfl
      | ok state =>
        simp only []
        split <;> exact ih _ _
    · rfl

/-- The uninformed loop is the shared core run at the uninformed proposal. -/
theorem generate_particles_uninformed_loop_eq_core {State Action Obs : Type}
    (m : Model State Action Obs) (action : Action)
    (obs_map : ObservationMap Obs) (child_node : Option Nat)
    (n_particles : Int) :
    ∀ (fuel t : Nat) (particles : List (Option State)),
      m.generate_particles_uninformed_loop action obs_map child_node
        n_particles fuel t particles =
      particle_filter_core m action obs_map child_node n_particles
        (uninformed_proposal m) fuel t particles := by
  intro fuel
  induction fuel with
  | zero => intro t particles; rfl
  | succ fuel ih =>
    intro t particles
    simp only [Model.generate_particles_uninformed_loop, particle_filter_core,
      uninformed_proposal]
    split
    · split <;> exact ih _ _
    · rfl

/-! ## Behaviour of the core loop -/

/-- A run of the core loop that exits normally returns exactly
`n_particles` particles, provided it starts below the target (the loop
appends one particle per accepted candidate, so it cannot overshoot). -/
theorem particle_filter_core_length {State Action Obs : Type}
    (m : Model State Action Obs) (action : Action)
    (obs_map : ObservationMap Obs) (child_node : Option Nat)
    (n_particles : Int) (candidate : Nat → Except PyErr State) :
    ∀ (fuel t : Nat) (particles ps : List (Option State)) (T : Nat),
      (particles.length : Int) ≤ n_particles →
      particle_filter_core m action obs_map child_node n_particles
        candidate fuel t particles = some (.ok (ps, T)) →
      (ps.length : Int) = n_particles := by
  intro fuel
  induction fuel with
  | zero =>
    intro t particles ps T hle hrun
    rw [particle_filter_core] at hrun
    split at hrun
    · simp at hrun
    · rename_i hnotlt
      simp only [Option.some.injEq, Except.ok.injEq, Prod.mk.injEq] at hrun
      obtain ⟨rfl, rfl⟩ := hrun
      omega
  | succ fuel ih =>
    intro t particles ps T hle hrun
    rw [particle_filter_core] at hrun
    split at hrun
    · rename_i hlt
      cases hc : candidate t with
      | error e => rw [hc] at hrun; simp at hrun
      | ok state =>
        rw [hc] at hrun
        simp only [] at hrun
        split at hrun
        · refine ih _ _ _ _ ?_ hrun
          simp only [List.length_append, List.length_singleton]
          push_cast
          omega
        · exact ih _ _ _ _ hle hrun
    · rename_i hnotlt
      simp only [Option.some.injEq, Except.ok.injEq, Prod.mk.injEq] at hrun
      obtain ⟨rfl, rfl⟩ := hrun
      omega

/-- Provenance of accepted particles: every particle in a normal run of the
core loop either was already in the accumulator or is the `next_state` of a
`generate_step` call on a drawn candidate whose observation classifies to
`child_node` — the target handle. -/
theorem particle_filter_core_mem {State Action Obs : Type}
    (m : Model State Action Obs) (action : Action)
    (obs_map : ObservationMap Obs) (child_node : Option Nat)
    (n_particles : Int) (candidate : Nat → Except PyErr State) :
    ∀ (fuel t : Nat) (particles ps : List (Option State)) (T : Nat),
      particle_filter_core m action obs_map child_node n_particles
        candidate fuel t particles = some (.ok (ps, T)) →
      ∀ p ∈ ps, p ∈ particles ∨
        ∃ (u : Nat) (s : State), t ≤ u ∧ candidate u = .ok s ∧
          p = (m.generate_step u s action).fst.next_state ∧
          obs_map.get_belief ((m.generate_step u s action).fst.observation) =
            child_node := by
  intro fuel
  induction fuel with
  | zero =>
    intro t particles ps T hrun p hp
    rw [particle_filter_core] at hrun
    split at hrun
    · simp at hrun
    · simp only [Option.some.injEq, Except.ok.injEq, Prod.mk.injEq] at hrun
      obtain ⟨rfl, rfl⟩ := hrun
      exact Or.inl hp
  | succ fuel ih =>
    intro t particles ps T hrun p hp
    rw [particle_filter_core] at hrun
    split at hrun
    · cases hc : candidate t with
      | error e => rw [hc] at hrun; simp at hrun
      | ok state =>
        rw [hc] at hrun
        simp only [] at hrun
        split at hrun
        · rename_i hmatch
          rcases ih _ _ _ _ hrun p hp with hin | ⟨u, s, hu, hcu, hps, hcls⟩
          · rcases List.mem_append.mp hin with hin | hin
            · exact Or.inl hin
            · right
              refine ⟨t, state, le_refl t, hc, ?_, hmatch⟩
              simpa using hin
          · exact Or.inr ⟨u, s, by omega, hcu, hps, hcls⟩
        · rcases ih _ _ _ _ hrun p hp with hin | ⟨u, s, hu, hcu, hps, hcls⟩
          · exact Or.inl hin
          · exact Or.inr ⟨u, s, by omega, hcu, hps, hcls⟩
    · simp only [Option.some.injEq, Except.ok.injEq, Prod.mk.injEq] at hrun
      obtain ⟨rfl, rfl⟩ := hrun
      exact Or.inl hp

/-- If every drawn candidate is rejected (its stepped observation never
classifies to the target handle) and the proposal never raises, the core
loop exhausts any amount of fuel while still short of the target: the
source `while` loop never terminates. -/
theorem particle_filter_core_reject_none {State Action Obs : Type}
    (m : Model State Action Obs) (action : Action)
    (obs_map : ObservationMap Obs) (child_node : Option Nat)
    (n_particles : Int) (candidate : Nat → Except PyErr State)
    (hok : ∀ u : Nat, ∃ s : State, candidate u = .ok s)
    (hrej : ∀ (u : Nat) (s : State), candidate u = .ok s →
      obs_map.get_belief ((m.generate_step u s action).fst.observation) ≠
        child_node) :
    ∀ (fuel t : Nat) (particles : List (Option State)),
      (particles.length : Int) < n_particles →
      particle_filter_core m action obs_map child_node n_particles
        candidate fuel t particles = none := by
  intro fuel
  induction fuel with
  | zero =>
    intro t particles hlt
    rw [particle_filter_core]
    exact if_pos hlt
  | succ fuel ih =>
    intro t particles hlt
    rw [particle_filter_core]
    rw [if_pos hlt]
    obtain ⟨s, hs⟩ := hok t
    rw [hs]
    simp only []
    rw [if_neg (hrej t s hs)]
    exact ih _ _ hlt

/-- If every drawn candidate is accepted and the proposal never raises, the
core loop finishes normally as soon as the fuel covers the missing
particles. -/
theorem particle_filter_core_accept_completes {State Action Obs : Type}
    (m : Model State Action Obs) (action : Action)
    (obs_map : ObservationMap Obs) (child_node : Option Nat)
    (n_particles : Int) (candidate : Nat → Except PyErr State)
    (hok : ∀ u : Nat, ∃ s : State, candidate u = .ok s)
    (hacc : ∀ (u : Nat) (s : State), candidate u = .ok s →
      obs_map.get_belief ((m.generate_step u s action).fst.observation) =
        child_node) :
    ∀ (fuel t : Nat) (particles : List (Option State)),
      n_particles ≤ (particles.length : Int) + (fuel : Int) →
      ∃ (ps : List (Option State)) (T : Nat),
        particle_filter_core m action obs_map child_node n_particles
          candidate fuel t particles = some (.ok (ps, T)) := by
  intro fuel
  induction fuel with
  | zero =>
    intro t particles hfuel
    rw [particle_filter_core]
    rw [if_neg (by push_cast at hfuel ⊢; omega)]
    exact ⟨particles, t, rfl⟩
  | succ fuel ih =>
    intro t particles hfuel
    rw [particle_filter_core]
    by_cases hlt : (particles.length : Int) < n_particles
    · rw [if_pos hlt]
      obtain ⟨s, hs⟩ := hok t
      rw [hs]
      simp only []
      rw [if_pos (hacc t s hs)]
      refine ih (t + 1) _ ?_
      simp only [List.length_append, List.length_singleton]
      push_cast at hfuel ⊢
      omega
    · rw [if_neg hlt]
      exact ⟨particles, t, rfl⟩

/-- The core loop reads the prior only through the candidate stream:
pointwise equal proposals give identical runs. -/
theorem particle_filter_core_congr {State Action Obs : Type}
    (m : Model State Action Obs) (action : Action)
    (obs_map : ObservationMap Obs) (child_node : Option Nat)
    (n_particles : Int) (c1 c2 : Nat → Except PyErr State)
    (h : ∀ u, c1 u = c2 u) :
    ∀ (fuel t : Nat) (particles : List (Option State)),
      particle_filter_core m action obs_map child_node n_particles
        c1 fuel t particles =
      particle_filter_core m action obs_map child_node n_particles
        c2 fuel t particles := by
  have hc : c1 = c2 := funext h
  intro fuel t particles
  rw [hc]

/-- The same model with the legality flag of `generate_step` replaced by an
arbitrary function; the `StepResult` part is untouched. -/
def Model.with_legal_flag {State Action Obs : Type}
    (m : Model State Action Obs) (g : Nat → State → Action → Bool) :
    Model State Action Obs :=
  { m with generate_step := fun t s a => ((m.generate_step t s a).fst, g t s a) }

/-- Overriding the legality flag leaves the `StepResult` part of
`generate_step` unchanged. -/
theorem with_legal_flag_fst {State Action Obs : Type}
    (m : Model State Action Obs) (g : Nat → State → Action → Bool)
    (t : Nat) (s : State) (a : Action) :
    ((m.with_legal_flag g).generate_step t s a).fst =
      (m.generate_step t s a).fst := rfl

/-- The core loop never reads the legality flag: overriding it changes
nothing. -/
theorem particle_filter_core_flag_blind {State Action Obs : Type}
    (m : Model State Action Obs) (g : Nat → State → Action → Bool)
    (action : Action) (obs_map : ObservationMap Obs)
    (child_node : Option Nat) (n_particles : Int)
    (candidate : Nat → Except PyErr State) :
    ∀ (fuel t : Nat) (particles : List (Option State)),
      particle_filter_core (m.with_legal_flag g) action obs_map child_node
        n_particles candidate fuel t particles =
      particle_filter_core m action obs_map child_node n_particles
        candidate fuel t particles := by
  intro fuel
  induction fuel with
  | zero => intro t particles; rfl
  | succ fuel ih =>
    intro t particles
    rw [particle_filter_core, particle_filter_core]
    split
    · cases candidate t with
      | error e => rfl
      | ok state =>
        simp only [with_legal_flag_fst]
        split <;> exact ih _ _
    · rfl

/-! ## The entry points, reduced to the core -/

/-- With the action node present, `generate_particles` is the core loop at
the informed proposal, started on the empty accumulator. -/
theorem generate_particles_eq_core {State Action Obs : Type}
    (m : Model State Action Obs) (previous_belief : BeliefNode Action Obs)
    (action : Action) (obs : Option Obs) (n_particles : Int)
    (prev_particles : List State) (choice : Nat → Nat) (fuel : Nat)
    (action_node : ActionNode Obs)
    (hnode : previous_belief.action_map.get_action_node action =
      some action_node) :
    m.generate_particles previous_belief action obs n_particles
      prev_particles choice fuel =
    particle_filter_core m action action_node.observation_map
      (action_node.observation_map.get_belief obs) n_particles
      (informed_proposal prev_particles choice) fuel 0 [] := by
  unfold Model.generate_particles
  rw [hnode]
  exact generate_particles_loop_eq_core m action _ _ n_particles
    prev_particles choice fuel 0 []

/-- With the action node present, `generate_particles_uninformed` is the
core loop at the uninformed proposal, started on the empty accumulator. -/
theorem generate_particles_uninformed_eq_core {State Action Obs : Type}
    (m : Model State Action Obs) (previous_belief : BeliefNode Action Obs)
    (action : Action) (obs : Option Obs) (n_particles : Int) (fuel : Nat)
    (action_node : ActionNode Obs)
    (hnode : previous_belief.action_map.get_action_node action =
      some action_node) :
    m.generate_particles_uninformed previous_belief action obs n_particles
      fuel =
    particle_filter_core m action action_node.observation_map
      (action_node.observation_map.get_belief obs) n_particles
      (uninformed_proposal m) fuel 0 [] := by
  unfold Model.generate_particles_uninformed
  rw [hnode]
  exact generate_particles_uninformed_loop_eq_core m action _ _ n_particles
    fuel 0 []

/-- On a nonempty prior, the informed proposal always yields a draw, and
that draw is a read of the prior collection at the sampled index. -/
theorem informed_proposal_ok {State : Type} (prev_particles : List State)
    (choice : Nat → Nat) (hne : prev_particles ≠ []) (u : Nat) :
    ∃ s : State, informed_proposal prev_particles choice u = .ok s ∧
      prev_particles.get? (choice u % prev_particles.length) = some s := by
  have hlen : 0 < prev_particles.length := List.length_pos.mpr hne
  have hidx : choice u % prev_particles.length < prev_particles.length :=
    Nat.mod_lt _ hlen
  refine ⟨prev_particles.get ⟨choice u % prev_particles.length, hidx⟩, ?_, ?_⟩
  · unfold informed_proposal random_choice
    rw [List.get?_eq_get hidx]
  · rw [List.get?_eq_get hidx]

/-- The informed proposal only yields elements read from the prior at the
sampled index. -/
theorem informed_proposal_eq_ok {State : Type} (prev_particles : List State)
    (choice : Nat → Nat) (u : Nat) (s : State)
    (h : informed_proposal prev_particles choice u = .ok s) :
    prev_particles.get? (choice u % prev_particles.length) = some s := by
  unfold informed_proposal random_choice at h
  split at h
  · rename_i hget
    injection h with h
    rw [hget, h]
  · exact absurd h (by simp)

/-! ## Concrete instantiations used by witnesses and counterexamples -/

/-- A two-class observation map on `Nat` observations: observation `k` is
classified into belief node `k % 2`, and `None` is unseen. Raw observations
`0` and `2` differ but resolve to the same node handle. -/
def demoObsMap : ObservationMap Nat :=
  ⟨fun o => match o with
    | some k => some (k % 2)
    | none => none⟩

/-- A belief node whose action map resolves every action to the same action
node, carrying `demoObsMap`. -/
def demoBelief : BeliefNode Unit Nat :=
  ⟨⟨fun _ => some ⟨demoObsMap⟩⟩⟩

/-- A belief node on which no action was ever expanded. -/
def demoBeliefNoAction : BeliefNode Unit Nat :=
  ⟨⟨fun _ => none⟩⟩

/-- A belief node whose action node exists but has seen no observation at
all: every lookup yields `none`. -/
def demoBeliefUnseen : BeliefNode Unit Nat :=
  ⟨⟨fun _ => some ⟨⟨fun _ => none⟩⟩⟩⟩

/-- A model whose step echoes the sampled state as `next_state`, emits raw
observation `2` (classified by `demoObsMap` into node `0`), and deems every
state valid. -/
def demoModel : Model Nat Unit Nat :=
  { generate_step := fun _ s _ =>
      ({ action := some ()
         observation := some 2
         reward := .pyInt 1
         next_state := some s
         is_terminal := .pyInt 0 }, true)
    sample_state_uninformed := fun _ => 7
    is_valid := fun _ => true }

/-- A model whose step always produces `next_state = 99`, a state its own
validity predicate rejects. -/
def invalidModel : Model Nat Unit Nat :=
  { generate_step := fun _ _ _ =>
      ({ action := some ()
         observation := some 2
         reward := .pyInt 0
         next_state := some 99
         is_terminal := .pyInt 0 }, true)
    sample_state_uninformed := fun _ => 7
    is_valid := fun s => decide (s < 50) }

/-- A model whose step emits raw observation `1` (classified by
`demoObsMap` into node `1`), so it can never reproduce target node `0`. -/
def rejectModel : Model Nat Unit Nat :=
  { generate_step := fun _ s _ =>
      ({ action := some ()
         observation := some 1
         reward := .pyInt 0
         next_state := some s
         is_terminal := .pyInt 0 }, true)
    sample_state_uninformed := fun _ => 7
    is_valid := fun _ => true }

/-! ## Claims -/

/-- C1 (amended): for `n_particles > 0`, when the action-node lookup on the
prior belief succeeds, any call to `generate_particles` or
`generate_particles_uninformed` that completes returns exactly
`n_particles` values, and — since the source performs no `is_valid` check —
each of them is valid provided every `next_state` the model generates is a
valid state. -/
theorem c1_completed_call_returns_n_valid_particles
    {State Action Obs : Type} (m : Model State Action Obs)
    (previous_belief : BeliefNode Action Obs) (action : Action)
    (obs : Option Obs) (n_particles : Int) (prev_particles : List State)
    (choice : Nat → Nat) (fuel : Nat) (action_node : ActionNode Obs)
    (hn : 0 < n_particles)
    (hnode : previous_belief.action_map.get_action_node action =
      some action_node)
    (hvalid : ∀ (t : Nat) (s : State), ∃ st : State,
      (m.generate_step t s action).fst.next_state = some st ∧
      m.is_valid st = true) :
    (∀ (ps : List (Option State)) (T : Nat),
      m.generate_particles previous_belief action obs n_particles
        prev_particles choice fuel = some (.ok (ps, T)) →
      (ps.length : Int) = n_particles ∧
      ∀ p ∈ ps, ∃ st : State, p = some st ∧ m.is_valid st = true) ∧
    (∀ (ps : List (Option State)) (T : Nat),
      m.generate_particles_uninformed previous_belief action obs n_particles
        fuel = some (.ok (ps, T)) →
      (ps.length : Int) = n_particles ∧
      ∀ p ∈ ps, ∃ st : State, p = some st ∧ m.is_valid st = true) := by
  constructor
  · intro ps T hrun
    rw [generate_particles_eq_core m previous_belief action obs n_particles
      prev_particles choice fuel action_node hnode] at hrun
    refine ⟨particle_filter_core_length m action _ _ n_particles _ fuel 0 []
      ps T (by simp; omega) hrun, ?_⟩
    intro p hp
    rcases particle_filter_core_mem m action _ _ n_particles _ fuel 0 [] ps T
        hrun p hp with hin | ⟨u, s, -, -, hps, -⟩
    · simp at hin
    · obtain ⟨st, hst, hv⟩ := hvalid u s
      exact ⟨st, hps.trans hst, hv⟩
  · intro ps T hrun
    rw [generate_particles_uninformed_eq_core m previous_belief action obs
      n_particles fuel action_node hnode] at hrun
    refine ⟨particle_filter_core_length m action _ _ n_particles _ fuel 0 []
      ps T (by simp; omega) hrun, ?_⟩
    intro p hp
    rcases particle_filter_core_mem m action _ _ n_particles _ fuel 0 [] ps T
        hrun p hp with hin | ⟨u, s, -, -, hps, -⟩
    · simp at hin
    · obtain ⟨st, hst, hv⟩ := hvalid u s
      exact ⟨st, hps.trans hst, hv⟩

/-- C1 witness: a concrete completed call of the demo model, returning the
requested two particles, all valid. -/
theorem c1_witness :
    (0 : Int) < 2 ∧
    ((([some 5, some 5] : List (Option Nat)).length : Int) = 2 ∧
      ∀ p ∈ ([some 5, some 5] : List (Option Nat)),
        ∃ st : Nat, p = some st ∧ demoModel.is_valid st = true) :=
  ⟨by decide,
   (c1_completed_call_returns_n_valid_particles demoModel demoBelief ()
      (some 0) 2 [5] (fun _ => 0) 2 ⟨demoObsMap⟩ (by decide) rfl
      (fun t s => ⟨s, rfl, rfl⟩)).1 [some 5, some 5] 2 rfl⟩

/-- C1 counterexample: the claim as stated is false — the loop performs no
`is_valid` check, so a model whose steps produce invalid next states makes
a successful call (here `n_particles = 1 > 0`) return a particle that
fails `is_valid`. -/
theorem c1_counterexample :
    invalidModel.generate_particles demoBelief () (some 0) 1 [5]
      (fun _ => 0) 1 = some (.ok ([some 99], 1)) ∧
    invalidModel.is_valid 99 = false :=
  ⟨rfl, by decide⟩

/-- C2: in both loops a candidate is accepted exactly when the belief-node
handle of its stepped observation equals the resolved target handle
(equality of identity tokens, embedding the Python `is` comparison — not
raw observation equality); consequently every returned particle is the
`next_state` of a drawn candidate whose generating observation,
re-classified through the same lookup, resolves to the same handle as the
target observation. -/
theorem c2_accepted_particles_classify_to_target_handle
    {State Action Obs : Type} (m : Model State Action Obs)
    (previous_belief : BeliefNode Action Obs) (action : Action)
    (obs : Option Obs) (n_particles : Int) (prev_particles : List State)
    (choice : Nat → Nat) (fuel : Nat) (action_node : ActionNode Obs)
    (hnode : previous_belief.action_map.get_action_node action =
      some action_node) :
    (∀ (ps : List (Option State)) (T : Nat),
      m.generate_particles previous_belief action obs n_particles
        prev_particles choice fuel = some (.ok (ps, T)) →
      ∀ p ∈ ps, ∃ (u : Nat) (s : State),
        informed_proposal prev_particles choice u = .ok s ∧
        p = (m.generate_step u s action).fst.next_state ∧
        action_node.observation_map.get_belief
            ((m.generate_step u s action).fst.observation) =
          action_node.observation_map.get_belief obs) ∧
    (∀ (ps : List (Option State)) (T : Nat),
      m.generate_particles_uninformed previous_belief action obs n_particles
        fuel = some (.ok (ps, T)) →
      ∀ p ∈ ps, ∃ (u : Nat) (s : State),
        uninformed_proposal m u = .ok s ∧
        p = (m.generate_step u s action).fst.next_state ∧
        action_node.observation_map.get_belief
            ((m.generate_step u s action).fst.observation) =
          action_node.observation_map.get_belief obs) := by
  constructor
  · intro ps T hrun p hp
    rw [generate_particles_eq_core m previous_belief action obs n_particles
      prev_particles choice fuel action_node hnode] at hrun
    rcases particle_filter_core_mem m action _ _ n_particles _ fuel 0 [] ps T
        hrun p hp with hin | ⟨u, s, -, hcu, hps, hcls⟩
    · simp at hin
    · exact ⟨u, s, hcu, hps, hcls⟩
  · intro ps T hrun p hp
    rw [generate_particles_uninformed_eq_core m previous_belief action obs
      n_particles fuel action_node hnode] at hrun
    rcases particle_filter_core_mem m action _ _ n_particles _ fuel 0 [] ps T
        hrun p hp with hin | ⟨u, s, -, hcu, hps, hcls⟩
    · simp at hin
    · exact ⟨u, s, hcu, hps, hcls⟩

/-- C2 witness: a concrete completed call in which the accepted raw
observation (`2`) differs from the target raw observation (`0`) yet both
resolve to belief node `0`, so the particle is accepted through handle
identity, not raw equality. -/
theorem c2_witness :
    demoBelief.action_map.get_action_node () = some ⟨demoObsMap⟩ ∧
    demoObsMap.get_belief (some 2) = demoObsMap.get_belief (some 0) ∧
    ((2 : Nat) ≠ 0) ∧
    (∀ p ∈ ([some 5] : List (Option Nat)), ∃ (u : Nat) (s : Nat),
      informed_proposal [5] (fun _ => 0) u = .ok s ∧
      p = (demoModel.generate_step u s ()).fst.next_state ∧
      (⟨demoObsMap⟩ : ActionNode Nat).observation_map.get_belief
          ((demoModel.generate_step u s ()).fst.observation) =
        (⟨demoObsMap⟩ : ActionNode Nat).observation_map.get_belief (some 0)) :=
  ⟨rfl, rfl, by decide,
   (c2_accepted_particles_classify_to_target_handle demoModel demoBelief ()
      (some 0) 1 [5] (fun _ => 0) 1 ⟨demoObsMap⟩ rfl).1 [some 5] 1 rfl⟩

/-- C3 (amended): only a missing action node short-circuits, and only in
`generate_particles`, which then returns the empty list with zero
`generate_step` calls; `generate_particles_uninformed` instead raises
`AttributeError` on a missing action node. An unseen target observation
short-circuits neither entry point (see C8). -/
theorem c3_missing_action_node_returns_empty
    {State Action Obs : Type} (m : Model State Action Obs)
    (previous_belief : BeliefNode Action Obs) (action : Action)
    (obs : Option Obs) (n_particles : Int) (prev_particles : List State)
    (choice : Nat → Nat) (fuel : Nat)
    (hnone : previous_belief.action_map.get_action_node action = none) :
    m.generate_particles previous_belief action obs n_particles
      prev_particles choice fuel = some (.ok ([], 0)) ∧
    m.generate_particles_uninformed previous_belief action obs n_particles
      fuel = some (.error .attributeError) := by
  unfold Model.generate_particles Model.generate_particles_uninformed
  rw [hnone]
  exact ⟨rfl, rfl⟩

/-- C3 witness: the demo belief with no expanded action. -/
theorem c3_witness :
    demoBeliefNoAction.action_map.get_action_node () = none ∧
    (demoModel.generate_particles demoBeliefNoAction () (some 0) 1 [5]
        (fun _ => 0) 1 = some (.ok ([], 0)) ∧
      demoModel.generate_particles_uninformed demoBeliefNoAction () (some 0)
        1 1 = some (.error .attributeError)) :=
  ⟨rfl,
   c3_missing_action_node_returns_empty demoModel demoBeliefNoAction ()
     (some 0) 1 [5] (fun _ => 0) 1 rfl⟩

/-- C3 counterexample: with the action node present but the target
observation never seen there (its lookup is `none`), `generate_particles`
does not return an empty collection: it calls `generate_step` (the returned
iteration count is `1`) and returns a particle, because the stepped
observation also resolves to no belief node and `None is None` holds. -/
theorem c3_counterexample :
    demoModel.generate_particles demoBeliefUnseen () (some 3) 1 [5]
      (fun _ => 0) 1 = some (.ok ([some 5], 1)) := rfl

/-- C4: the rejection-sampling loops impose no attempt cap: whenever the
model can never produce an observation that classifies into the target
belief node, both loops exhaust every fuel bound while the prior is
nonempty — the source `while` loops never terminate. Rejected candidates
leave no trace: the loop state is only the accepted-particle list and the
attempt counter. -/
theorem c4_no_attempt_cap_never_terminates
    {State Action Obs : Type} (m : Model State Action Obs)
    (previous_belief : BeliefNode Action Obs) (action : Action)
    (obs : Option Obs) (n_particles : Int) (prev_particles : List State)
    (choice : Nat → Nat) (action_node : ActionNode Obs)
    (hn : 0 < n_particles)
    (hnode : previous_belief.action_map.get_action_node action =
      some action_node)
    (hne : prev_particles ≠ [])
    (hrej : ∀ (u : Nat) (s : State),
      action_node.observation_map.get_belief
          ((m.generate_step u s action).fst.observation) ≠
        action_node.observation_map.get_belief obs) :
    (∀ fuel : Nat, m.generate_particles previous_belief action obs
      n_particles prev_particles choice fuel = none) ∧
    (∀ fuel : Nat, m.generate_particles_uninformed previous_belief action
      obs n_particles fuel = none) := by
  constructor
  · intro fuel
    rw [generate_particles_eq_core m previous_belief action obs n_particles
      prev_particles choice fuel action_node hnode]
    refine particle_filter_core_reject_none m action _ _ n_particles _
      ?_ ?_ fuel 0 [] (by simpa using hn)
    · intro u
      obtain ⟨s, hs, -⟩ := informed_proposal_ok prev_particles choice hne u
      exact ⟨s, hs⟩
    · intro u s _
      exact hrej u s
  · intro fuel
    rw [generate_particles_uninformed_eq_core m previous_belief action obs
      n_particles fuel action_node hnode]
    refine particle_filter_core_reject_none m action _ _ n_particles _
      ?_ ?_ fuel 0 [] (by simpa using hn)
    · exact fun u => ⟨m.sample_state_uninformed u, rfl⟩
    · intro u s _
      exact hrej u s

/-- C4 witness: the rejecting model (its steps classify to node `1`, the
target to node `0`) exhausts a concrete fuel bound in both entry points. -/
theorem c4_witness :
    (0 : Int) < 1 ∧
    demoObsMap.get_belief (some 1) ≠ demoObsMap.get_belief (some 0) ∧
    rejectModel.generate_particles demoBelief () (some 0) 1 [5]
      (fun _ => 0) 5 = none ∧
    rejectModel.generate_particles_uninformed demoBelief () (some 0) 1 7 =
      none :=
  ⟨by decide, by decide,
   (c4_no_attempt_cap_never_terminates rejectModel demoBelief () (some 0) 1
      [5] (fun _ => 0) ⟨demoObsMap⟩ (by decide) rfl (by decide)
      (fun u s => by show (some 1 : Option Nat) ≠ some 0; decide)).1 5,
   (c4_no_attempt_cap_never_terminates rejectModel demoBelief () (some 0) 1
      [5] (fun _ => 0) ⟨demoObsMap⟩ (by decide) rfl (by decide)
      (fun u s => by show (some 1 : Option Nat) ≠ some 0; decide)).2 7⟩

/-- C5 (amended): once the action node resolves, the two entry points are
the same core rejection-sampling loop, differing only in the proposal
distribution — uniform draws with replacement from `prev_particles` versus
`sample_state_uninformed`. When the action node does not resolve, their
behaviour also differs beyond the proposal: `generate_particles` returns
empty while `generate_particles_uninformed` raises (see the
counterexample). -/
theorem c5_entry_points_differ_only_in_proposal
    {State Action Obs : Type} (m : Model State Action Obs)
    (previous_belief : BeliefNode Action Obs) (action : Action)
    (obs : Option Obs) (n_particles : Int) (prev_particles : List State)
    (choice : Nat → Nat) (fuel : Nat) (action_node : ActionNode Obs)
    (hnode : previous_belief.action_map.get_action_node action =
      some action_node) :
    m.generate_particles previous_belief action obs n_particles
      prev_particles choice fuel =
      particle_filter_core m action action_node.observation_map
        (action_node.observation_map.get_belief obs) n_particles
        (informed_proposal prev_particles choice) fuel 0 [] ∧
    m.generate_particles_uninformed previous_belief action obs n_particles
      fuel =
      particle_filter_core m action action_node.observation_map
        (action_node.observation_map.get_belief obs) n_particles
        (uninformed_proposal m) fuel 0 [] :=
  ⟨generate_particles_eq_core m previous_belief action obs n_particles
     prev_particles choice fuel action_node hnode,
   generate_particles_uninformed_eq_core m previous_belief action obs
     n_particles fuel action_node hnode⟩

/-- C5 witness: the demo belief resolves its action node, and both entry
points coincide with the shared core at their respective proposals. -/
theorem c5_witness :
    demoBelief.action_map.get_action_node () = some ⟨demoObsMap⟩ ∧
    (demoModel.generate_particles demoBelief () (some 0) 1 [5] (fun _ => 0)
        3 =
      particle_filter_core demoModel () (⟨demoObsMap⟩ : ActionNode Nat).observation_map
        ((⟨demoObsMap⟩ : ActionNode Nat).observation_map.get_belief (some 0)) 1
        (informed_proposal [5] (fun _ => 0)) 3 0 [] ∧
     demoModel.generate_particles_uninformed demoBelief () (some 0) 1 3 =
      particle_filter_core demoModel () (⟨demoObsMap⟩ : ActionNode Nat).observation_map
        ((⟨demoObsMap⟩ : ActionNode Nat).observation_map.get_belief (some 0)) 1
        (uninformed_proposal demoModel) 3 0 []) :=
  ⟨rfl,
   c5_entry_points_differ_only_in_proposal demoModel demoBelief () (some 0)
     1 [5] (fun _ => 0) 3 ⟨demoObsMap⟩ rfl⟩

/-- C5 counterexample: on the same input with an unexpanded action, the two
entry points diverge in a way no proposal distribution explains — the
informed variant returns an empty success before drawing any candidate,
the uninformed variant raises `AttributeError`. -/
theorem c5_counterexample :
    demoModel.generate_particles demoBeliefNoAction () (some 0) 3 [5]
      (fun _ => 0) 4 = some (.ok ([], 0)) ∧
    demoModel.generate_particles_uninformed demoBeliefNoAction () (some 0)
      3 4 = some (.error .attributeError) :=
  ⟨rfl, rfl⟩

/-- C6 (amended): illegality is indeed signalled through the boolean flag
`generate_step` returns alongside the `StepResult` rather than by raising,
but the two particle-generation loops do not branch on it: they bind it
and never read it, so overriding the flag by any function at all leaves
both entry points unchanged. -/
theorem c6_legality_flag_bound_but_ignored
    {State Action Obs : Type} (m : Model State Action Obs)
    (g : Nat → State → Action → Bool)
    (previous_belief : BeliefNode Action Obs) (action : Action)
    (obs : Option Obs) (n_particles : Int) (prev_particles : List State)
    (choice : Nat → Nat) (fuel : Nat) :
    (m.with_legal_flag g).generate_particles previous_belief action obs
      n_particles prev_particles choice fuel =
      m.generate_particles previous_belief action obs n_particles
        prev_particles choice fuel ∧
    (m.with_legal_flag g).generate_particles_uninformed previous_belief
      action obs n_particles fuel =
      m.generate_particles_uninformed previous_belief action obs n_particles
        fuel := by
  cases h : previous_belief.action_map.get_action_node action with
  | none =>
    constructor
    · unfold Model.generate_particles
      rw [h]
    · unfold Model.generate_particles_uninformed
      rw [h]
  | some action_node =>
    constructor
    · rw [generate_particles_eq_core (m.with_legal_flag g) previous_belief
          action obs n_particles prev_particles choice fuel action_node h,
        generate_particles_eq_core m previous_belief action obs n_particles
          prev_particles choice fuel action_node h]
      exact particle_filter_core_flag_blind m g action _ _ n_particles _
        fuel 0 []
    · rw [generate_particles_uninformed_eq_core (m.with_legal_flag g)
          previous_belief action obs n_particles fuel action_node h,
        generate_particles_uninformed_eq_core m previous_belief action obs
          n_particles fuel action_node h]
      exact particle_filter_core_flag_blind m g action _ _ n_particles _
        fuel 0 []

/-- C6 counterexample: the claim that the callers branch on the flag is
false — with the flag forced to `False` on every step (every action
illegal), the loop still accepts the step result as a particle, exactly as
with the flag forced to `True`. -/
theorem c6_counterexample :
    ((demoModel.with_legal_flag (fun _ _ _ => false)).generate_step 0 5
        ()).snd = false ∧
    (demoModel.with_legal_flag (fun _ _ _ => false)).generate_particles
      demoBelief () (some 0) 1 [5] (fun _ => 0) 1 =
      some (.ok ([some 5], 1)) ∧
    (demoModel.with_legal_flag (fun _ _ _ => true)).generate_particles
      demoBelief () (some 0) 1 [5] (fun _ => 0) 1 =
      some (.ok ([some 5], 1)) :=
  ⟨rfl, rfl, rfl⟩

/-- C7: `prev_particles` is a read-only input: the embedding is pure (the
source never mutates the collection — its only operation on it is the
`random.choice` read), and the call depends on the collection solely
through the candidates sampled from it, so two priors that agree on every
sampled read yield identical calls. -/
theorem c7_prior_particles_read_only
    {State Action Obs : Type} (m : Model State Action Obs)
    (previous_belief : BeliefNode Action Obs) (action : Action)
    (obs : Option Obs) (n_particles : Int) (p1 p2 : List State)
    (choice : Nat → Nat) (fuel : Nat)
    (h : ∀ u : Nat, p1.get? (choice u % p1.length) =
      p2.get? (choice u % p2.length)) :
    m.generate_particles previous_belief action obs n_particles p1 choice
      fuel =
    m.generate_particles previous_belief action obs n_particles p2 choice
      fuel := by
  cases hn : previous_belief.action_map.get_action_node action with
  | none =>
    unfold Model.generate_particles
    rw [hn]
  | some action_node =>
    rw [generate_particles_eq_core m previous_belief action obs n_particles
        p1 choice fuel action_node hn,
      generate_particles_eq_core m previous_belief action obs n_particles
        p2 choice fuel action_node hn]
    refine particle_filter_core_congr m action _ _ n_particles _ _ ?_ fuel
      0 []
    intro u
    unfold informed_proposal random_choice
    rw [h u]

/-- C7 witness: the priors `[5]` and `[5, 5]` agree on every read under the
constant index stream, so the calls coincide. -/
theorem c7_witness :
    (∀ u : Nat, ([5] : List Nat).get? ((fun _ : Nat => 0) u % ([5] : List Nat).length) =
      ([5, 5] : List Nat).get? ((fun _ : Nat => 0) u % ([5, 5] : List Nat).length)) ∧
    demoModel.generate_particles demoBelief () (some 0) 1 [5] (fun _ => 0)
      2 =
    demoModel.generate_particles demoBelief () (some 0) 1 [5, 5]
      (fun _ => 0) 2 :=
  ⟨fun _ => rfl,
   c7_prior_particles_read_only demoModel demoBelief () (some 0) 1 [5]
     [5, 5] (fun _ => 0) 2 (fun _ => rfl)⟩

/-- C8: with the action node present but the target observation unseen
there (its lookup yields no belief node), `generate_particles` does not
return early: it runs the sampling loop, accepting exactly the candidates
whose stepped observation likewise resolves to no belief node, and — when
every step resolves to no node — completes with the requested `n_particles`
states, each the `next_state` of such an accepted candidate. -/
theorem c8_unseen_observation_still_samples
    {State Action Obs : Type} (m : Model State Action Obs)
    (previous_belief : BeliefNode Action Obs) (action : Action)
    (obs : Option Obs) (n_particles : Int) (prev_particles : List State)
    (choice : Nat → Nat) (fuel : Nat) (action_node : ActionNode Obs)
    (hnode : previous_belief.action_map.get_action_node action =
      some action_node)
    (hobs : action_node.observation_map.get_belief obs = none)
    (hn : 0 < n_particles)
    (hne : prev_particles ≠ [])
    (hall : ∀ (u : Nat) (s : State),
      action_node.observation_map.get_belief
        ((m.generate_step u s action).fst.observation) = none)
    (hfuel : n_particles ≤ (fuel : Int)) :
    ∃ (ps : List (Option State)) (T : Nat),
      m.generate_particles previous_belief action obs n_particles
        prev_particles choice fuel = some (.ok (ps, T)) ∧
      (ps.length : Int) = n_particles ∧
      ∀ p ∈ ps, ∃ (u : Nat) (s : State),
        prev_particles.get? (choice u % prev_particles.length) = some s ∧
        p = (m.generate_step u s action).fst.next_state ∧
        action_node.observation_map.get_belief
          ((m.generate_step u s action).fst.observation) = none := by
  have hok : ∀ u : Nat, ∃ s : State,
      informed_proposal prev_particles choice u = .ok s := by
    intro u
    obtain ⟨s, hs, -⟩ := informed_proposal_ok prev_particles choice hne u
    exact ⟨s, hs⟩
  have hacc : ∀ (u : Nat) (s : State),
      informed_proposal prev_particles choice u = .ok s →
      action_node.observation_map.get_belief
          ((m.generate_step u s action).fst.observation) =
        action_node.observation_map.get_belief obs := by
    intro u s _
    rw [hobs]
    exact hall u s
  obtain ⟨ps, T, hrun⟩ := particle_filter_core_accept_completes m action
    action_node.observation_map (action_node.observation_map.get_belief obs)
    n_particles (informed_proposal prev_particles choice) hok hacc fuel 0 []
    (by simpa using hfuel)
  refine ⟨ps, T, ?_, ?_, ?_⟩
  · rw [generate_particles_eq_core m previous_belief action obs n_particles
      prev_particles choice fuel action_node hnode]
    exact hrun
  · exact particle_filter_core_length m action _ _ n_particles _ fuel 0 []
      ps T (by simp; omega) hrun
  · intro p hp
    rcases particle_filter_core_mem m action _ _ n_particles _ fuel 0 [] ps
        T hrun p hp with hin | ⟨u, s, -, hcu, hps, -⟩
    · simp at hin
    · exact ⟨u, s, informed_proposal_eq_ok prev_particles choice u s hcu,
        hps, hall u s⟩

/-- C8 witness: target observation `3` is unseen at the demo action node
with the all-unseen map; the call still collects its one particle from a
step whose observation also resolves to no node. -/
theorem c8_witness :
    (⟨⟨fun _ => none⟩⟩ : ActionNode Nat).observation_map.get_belief
      (some 3) = none ∧
    (∃ (ps : List (Option Nat)) (T : Nat),
      demoModel.generate_particles demoBeliefUnseen () (some 3) 1 [5]
        (fun _ => 0) 1 = some (.ok (ps, T)) ∧
      (ps.length : Int) = 1 ∧
      ∀ p ∈ ps, ∃ (u : Nat) (s : Nat),
        ([5] : List Nat).get? ((fun _ : Nat => 0) u % ([5] : List Nat).length) = some s ∧
        p = (demoModel.generate_step u s ()).fst.next_state ∧
        (⟨⟨fun _ => none⟩⟩ : ActionNode Nat).observation_map.get_belief
          ((demoModel.generate_step u s ()).fst.observation) = none) :=
  ⟨rfl,
   c8_unseen_observation_still_samples demoModel demoBeliefUnseen ()
     (some 3) 1 [5] (fun _ => 0) 1 ⟨⟨fun _ => none⟩⟩ rfl rfl (by decide)
     (by decide) (fun _ _ => rfl) (by decide)⟩

/-- C9: with the action node resolved and a non-positive particle count,
`generate_particles` returns the empty list after zero loop iterations —
no `generate_step` call and no candidate draw. -/
theorem c9_nonpositive_count_returns_empty
    {State Action Obs : Type} (m : Model State Action Obs)
    (previous_belief : BeliefNode Action Obs) (action : Action)
    (obs : Option Obs) (n_particles : Int) (prev_particles : List State)
    (choice : Nat → Nat) (fuel : Nat) (action_node : ActionNode Obs)
    (hn : n_particles ≤ 0)
    (hnode : previous_belief.action_map.get_action_node action =
      some action_node) :
    m.generate_particles previous_belief action obs n_particles
      prev_particles choice fuel = some (.ok ([], 0)) := by
  unfold Model.generate_particles
  rw [hnode]
  cases fuel with
  | zero =>
    simp only [Model.generate_particles_loop]
    rw [if_neg (by simp; omega)]
  | succ fuel =>
    simp only [Model.generate_particles_loop]
    rw [if_neg (by simp; omega)]

/-- C9 witness: a concrete call with `n_particles = 0` and another with a
negative count, both returning the empty list with zero iterations. -/
theorem c9_witness :
    (0 : Int) ≤ 0 ∧
    demoModel.generate_particles demoBelief () (some 0) 0 [5] (fun _ => 0)
      4 = some (.ok ([], 0)) ∧
    demoModel.generate_particles demoBelief () (some 0) (-2) [5]
      (fun _ => 0) 4 = some (.ok ([], 0)) :=
  ⟨by decide,
   c9_nonpositive_count_returns_empty demoModel demoBelief () (some 0) 0
     [5] (fun _ => 0) 4 ⟨demoObsMap⟩ (by decide) rfl,
   c9_nonpositive_count_returns_empty demoModel demoBelief () (some 0) (-2)
     [5] (fun _ => 0) 4 ⟨demoObsMap⟩ (by decide) rfl⟩

/-- C10: a freshly constructed `StepResult` carries `action = None`,
`observation = None`, `next_state = None`, `reward = 0` and
`is_terminal = 0` — the integer zero, a falsy value that is not a
boolean. -/
theorem c10_step_result_init_defaults {State Action Obs : Type} :
    (StepResult.init : StepResult State Action Obs).action = none ∧
    (StepResult.init : StepResult State Action Obs).observation = none ∧
    (StepResult.init : StepResult State Action Obs).next_state = none ∧
    (StepResult.init : StepResult State Action Obs).reward = .pyInt 0 ∧
    (StepResult.init : StepResult State Action Obs).is_terminal = .pyInt 0 ∧
    (StepResult.init : StepResult State Action Obs).is_terminal.truthy =
      false ∧
    ∀ b : Bool,
      (StepResult.init : StepResult State Action Obs).is_terminal ≠
        .pyBool b :=
  ⟨rfl, rfl, rfl, rfl, rfl, rfl, fun _ h => PyScalar.noConfusion h⟩
